import Mathlib

/-!
Verification of the `login` module of wrangler (`src/login/mod.rs`):
an OAuth2 Authorization Code + PKCE login flow with an ephemeral
localhost HTTP listener receiving the authorization redirect.

The embedding below is a shallow model of the Rust source:
* `handle_callback` models the hyper request handler (lines 39-97);
* `split_whitespace` models Rust's `str::split_whitespace`;
* `process_params` models the orchestrator's handling of the string
  received from the channel (lines 196-233 of `run`);
* `resolve_scopes` models the scope validation (lines 165-180);
* `run` models the whole flow as a function from an environment
  (user choices, inbound channel messages) to an outcome plus the
  ordered trace of externally visible events.

Conventions: a Rust `panic!`/`.unwrap()` on `None` is modelled by an
`Option.none` result (for `handle_callback`) or the `Outcome.panics`
constructor (for `run`); an unbounded block on the channel with no
message ever arriving is `Outcome.hangs`.
-/

namespace Wrangler

/-- The allow-list `SCOPES_LIST` (lines 27-36 of `src/login/mod.rs`). -/
def SCOPES_LIST : List String :=
  ["account:read", "user:read", "workers:write", "workers_kv:write",
   "workers_routes:write", "workers_scripts:write", "workers_tail:read",
   "zone:read"]

/-- An HTTP response as built by the handler: status code plus optional
`Location` header. -/
structure HttpResponse where
  status : Nat
  location : Option String
deriving Repr, DecidableEq

/-- The 308 redirect to the consent-denied page (lines 63-68). -/
def denied_response : HttpResponse :=
  ⟨308, some "http://127.0.0.1:8787/wrangler-oauth-consent-denied"⟩

/-- The 308 redirect to the consent-granted page (lines 76-81). -/
def granted_response : HttpResponse :=
  ⟨308, some "http://127.0.0.1:8787/wrangler-oauth-consent-granted"⟩

/-- The 404 response for non-callback paths (lines 89-92). -/
def not_found_response : HttpResponse := ⟨404, none⟩

/-- The values of query parameters whose key is `code` or `state`, in
query-string order, with multiplicity (the `for (key, value) in params`
loop, lines 51-56). -/
def callback_params_values (q : List (String × String)) : List String :=
  (q.filter (fun kv => kv.1 = "code" || kv.1 = "state")).map (fun kv => kv.2)

/-- Model of `handle_callback` (lines 39-97).  `query` is the parsed query
string of the request (`none` when the URI has no query string at all;
the parameters are percent-decoded key/value pairs in order).  The result
is `none` when the handler panics (the `.unwrap()` on line 48 panics when
`req.uri().query()` is `None`), otherwise `some (msg, resp)` where `msg`
is the string sent through the channel (every non-panicking branch sends
exactly one message) and `resp` the HTTP response returned. -/
def handle_callback (path : String) (query : Option (List (String × String))) :
    Option (String × HttpResponse) :=
  if path = "/oauth/callback" then
    match query with
    | none => none
    | some q =>
      match callback_params_values q with
      | [v0, v1] => some ("ok " ++ v0 ++ " " ++ v1, granted_response)
      | _ => some ("denied", denied_response)
  else
    some ("error", not_found_response)

/-!  Rust's `str::split_whitespace`: maximal runs of non-whitespace
characters, in order; no empty tokens.  "Whitespace" is the Unicode
`White_Space` property (what `char::is_whitespace` tests), not just
ASCII space/tab/CR/LF.  Modelled on `List Char` with an accumulator
holding the current (partial) token. -/

/-- Rust's `char::is_whitespace`: the Unicode `White_Space` property,
listed by code point (U+0009-U+000D, U+0020, U+0085, U+00A0, U+1680,
U+2000-U+200A, U+2028, U+2029, U+202F, U+205F, U+3000). -/
def rustIsWhitespace (ch : Char) : Bool :=
  ch.toNat = 0x09 || ch.toNat = 0x0A || ch.toNat = 0x0B ||
  ch.toNat = 0x0C || ch.toNat = 0x0D || ch.toNat = 0x20 ||
  ch.toNat = 0x85 || ch.toNat = 0xA0 || ch.toNat = 0x1680 ||
  (0x2000 ≤ ch.toNat && ch.toNat ≤ 0x200A) ||
  ch.toNat = 0x2028 || ch.toNat = 0x2029 || ch.toNat = 0x202F ||
  ch.toNat = 0x205F || ch.toNat = 0x3000

/-- Auxiliary tokenizer: `acc` is the non-whitespace run read so far. -/
def swAux : List Char → List Char → List (List Char)
  | [], acc => if acc = [] then [] else [acc]
  | ch :: cs, acc =>
    if rustIsWhitespace ch then
      (if acc = [] then swAux cs [] else acc :: swAux cs [])
    else swAux cs (acc ++ [ch])

/-- Whitespace tokenization of a character list. -/
def swTokens (cs : List Char) : List (List Char) := swAux cs []

/-- Model of Rust's `split_whitespace` on strings (line 196). -/
def split_whitespace (s : String) : List String :=
  (swTokens s.data).map (fun cs => String.mk cs)

/-- The message the handler sends for a granted callback
(`format!("ok {} {}", v0, v1)`, line 73). -/
def encode_msg (code state : String) : String :=
  "ok " ++ code ++ " " ++ state

/-- Errors of the orchestrator, one per `bail!`/mismatch site of `run`. -/
inductive LoginErr
  /-- Lines 197-199: the split of the received message is empty. -/
  | emptyParams
  /-- Line 204: the first token is `denied` (consent denied). -/
  | consentDenied
  /-- Line 206: the first token is `err`. -/
  | serverErr
  /-- Lines 210-214: the split does not have exactly three tokens. -/
  | malformedCallback
  /-- Lines 220-226: the received CSRF state differs from the session one.
  Carries the received and expected values, as the `bail!` message does. -/
  | csrfMismatch (received expected : String)
deriving Repr, DecidableEq

/-- The user-facing message of each orchestrator error (`bail!` texts). -/
def err_message : LoginErr → String
  | .emptyParams => "Failed to receive authorization code from local HTTP server"
  | .consentDenied => "Consent denied. You must grant consent to Wrangler in order to login. If you don't want to do this consider using `wrangler config`"
  | .serverErr => "Failed to receive authorization code from local HTTP server"
  | .malformedCallback => "Failed to receive authorization code and/or csrf state from local HTTP server"
  | .csrfMismatch received expected =>
      "Redirect URI CSRF state check failed. Received: " ++ received ++
        ", expected: " ++ expected

/-- Model of the orchestrator's handling of the channel message
(lines 196-233 of `run`): whitespace-split the message, inspect the
status token, extract authorization code and CSRF state, compare the
state with the session's CSRF token.  `Except.ok c` means the flow
proceeds to the token exchange with authorization code `c`. -/
def process_params (msg : String) (session_csrf : String) :
    Except LoginErr String :=
  match split_whitespace msg with
  | [] => .error .emptyParams
  | status :: rest =>
    if status = "denied" then .error .consentDenied
    else if status = "err" then .error .serverErr
    else
      match rest with
      | [auth_code, recv_csrf_state] =>
        if recv_csrf_state = session_csrf then .ok auth_code
        else .error (.csrfMismatch recv_csrf_state session_csrf)
      | _ => .error .malformedCallback

/-- Scope validation loop (lines 172-179): each requested scope must be a
member of `SCOPES_LIST`; the first non-member aborts with that scope's
name; otherwise the requested scopes are kept in order. -/
def validate_scopes : List String → Except String (List String)
  | [] => .ok []
  | s :: rest =>
    if SCOPES_LIST.contains s then
      match validate_scopes rest with
      | .ok r => .ok (s :: r)
      | .error e => .error e
    else .error s

/-- Scope resolution (lines 165-180): with no requested scopes the full
allow-list is used; otherwise the requested scopes are validated. -/
def resolve_scopes (scopes : Option (List String)) :
    Except String (List String) :=
  match scopes with
  | none => .ok SCOPES_LIST
  | some reqs => validate_scopes reqs

/-- Externally visible events of `run`, in order of occurrence. -/
inductive Event
  /-- The interactive browser-permission prompt (line 185). -/
  | confirm_prompt
  /-- `open_browser(auth_url)` (line 189). -/
  | open_browser
  /-- The `Server::bind` of the local listener, inside
  `http_server_get_params` (line 120), reached via line 192. -/
  | bind_server
  /-- The blocking receive on the channel (line 125). -/
  | channel_recv
  /-- `client.exchange_code(...)` with the given code (lines 229-233). -/
  | token_exchange (code : String)
  /-- `global_config(&user, false)` (line 242). -/
  | persist_credential
deriving Repr, DecidableEq

/-- Terminal errors of `run` as surfaced to the caller. -/
inductive RunErr
  /-- Line 177: `Invalid scope has been provided: {scope}`. -/
  | invalidScope (s : String)
  /-- Line 187: the user refused to open the browser. -/
  | browserDenied
  /-- One of the post-receive errors of `process_params`. -/
  | loginErr (e : LoginErr)
deriving Repr, DecidableEq

/-- How an execution of `run` ends. -/
inductive Outcome
  /-- `run` returns, with the given result. -/
  | completes (r : Except RunErr Unit)
  /-- `run` blocks forever on `rx.recv()` (line 125): no message is ever
  sent and the senders stay alive, so the receive never returns. -/
  | hangs
  /-- A panic: here, the `unwrap` on line 125 after every sender is
  dropped (which happens when the spawned server task dies, e.g. on a
  bind failure, line 121). -/
  | panics
deriving Repr

instance {ε α : Type} [DecidableEq ε] [DecidableEq α] :
    DecidableEq (Except ε α) := fun a b =>
  match a, b with
  | .ok x, .ok y =>
    if h : x = y then .isTrue (by rw [h])
    else .isFalse (by intro hh; cases hh; exact h rfl)
  | .error x, .error y =>
    if h : x = y then .isTrue (by rw [h])
    else .isFalse (by intro hh; cases hh; exact h rfl)
  | .ok _, .error _ => .isFalse (by intro h; cases h)
  | .error _, .ok _ => .isFalse (by intro h; cases h)

instance : DecidableEq Outcome := fun a b =>
  match a, b with
  | .completes x, .completes y =>
    if h : x = y then .isTrue (by rw [h])
    else .isFalse (by intro hh; cases hh; exact h rfl)
  | .hangs, .hangs => .isTrue rfl
  | .panics, .panics => .isTrue rfl
  | .completes _, .hangs => .isFalse (by intro h; cases h)
  | .completes _, .panics => .isFalse (by intro h; cases h)
  | .hangs, .completes _ => .isFalse (by intro h; cases h)
  | .hangs, .panics => .isFalse (by intro h; cases h)
  | .panics, .completes _ => .isFalse (by intro h; cases h)
  | .panics, .hangs => .isFalse (by intro h; cases h)

/-- The environment of one execution of `run`: the requested scopes, the
user's answer to the browser prompt, whether the local bind succeeds,
the ordered list of messages sent through the channel by the handler
(empty when no request ever reaches the listener), and the session's
CSRF token (generated on line 162; the comparison uses its secret). -/
structure Env where
  scopes : Option (List String)
  browser_permission : Bool
  bind_ok : Bool
  messages : List String
  session_csrf : String

/-- Model of `run` (lines 129-245): scope resolution, browser prompt,
browser launch, listener bind, single blocking receive of the first
channel message, message processing, token exchange, persistence.
Externalities assumed benign: the client id is configured, and the token
exchange and credential persistence succeed when reached.  The second
component is the trace of events, in the order the code performs them:
the browser is opened (line 189) before `http_server_get_params` binds
the listener (lines 192, 120). -/
def run (env : Env) : Outcome × List Event :=
  match resolve_scopes env.scopes with
  | .error s => (.completes (.error (.invalidScope s)), [])
  | .ok _ =>
    if env.browser_permission = false then
      (.completes (.error .browserDenied), [.confirm_prompt])
    else if env.bind_ok = false then
      (.panics, [.confirm_prompt, .open_browser, .bind_server])
    else
      match env.messages.head? with
      | none => (.hangs, [.confirm_prompt, .open_browser, .bind_server])
      | some msg =>
        match process_params msg env.session_csrf with
        | .error e =>
          (.completes (.error (.loginErr e)),
           [.confirm_prompt, .open_browser, .bind_server, .channel_recv])
        | .ok code =>
          (.completes (.ok ()),
           [.confirm_prompt, .open_browser, .bind_server, .channel_recv,
            .token_exchange code, .persist_credential])

/-- A string is whitespace-free: no character of it has the Unicode
`White_Space` property. -/
def WsFree (s : String) : Prop := ∀ ch ∈ s.data, ¬rustIsWhitespace ch

instance (s : String) : Decidable (WsFree s) := by
  unfold WsFree; infer_instance

/-! ### Lemmas about the whitespace tokenizer -/

theorem swAux_append_ws (ch : Char) (hch : rustIsWhitespace ch = true)
    (xs ys : List Char) :
    ∀ acc, swAux (xs ++ ch :: ys) acc = swAux xs acc ++ swAux ys [] := by
  induction xs with
  | nil =>
    intro acc
    by_cases h : acc = [] <;> simp [swAux, hch, h]
  | cons x xs ih =>
    intro acc
    cases hx : rustIsWhitespace x with
    | true =>
      by_cases h : acc = [] <;> simp [swAux, hx, h, ih]
    | false =>
      simp [swAux, hx, ih]

theorem swAux_nonws (cs : List Char)
    (hcs : ∀ ch ∈ cs, rustIsWhitespace ch = false) :
    ∀ acc, swAux cs acc = if acc ++ cs = [] then [] else [acc ++ cs] := by
  induction cs with
  | nil =>
    intro acc
    by_cases h : acc = [] <;> simp [swAux, h]
  | cons c cs ih =>
    intro acc
    have hc : rustIsWhitespace c = false := hcs c (List.mem_cons_self c cs)
    have ih2 := ih (fun ch hch => hcs ch (List.mem_cons_of_mem c hch))
    simp [swAux, hc, ih2 (acc ++ [c]), List.append_assoc]

theorem mem_swAux (cs : List Char) :
    ∀ acc, (∀ ch ∈ acc, rustIsWhitespace ch = false) →
      ∀ t ∈ swAux cs acc, t ≠ [] ∧ ∀ ch ∈ t, rustIsWhitespace ch = false := by
  induction cs with
  | nil =>
    intro acc hacc t ht
    by_cases h : acc = []
    · simp [swAux, h] at ht
    · simp [swAux, h] at ht
      subst ht
      exact ⟨h, hacc⟩
  | cons c cs ih =>
    intro acc hacc t ht
    cases hc : rustIsWhitespace c with
    | true =>
      by_cases h : acc = []
      · simp [swAux, hc, h] at ht
        exact ih [] (by simp) t ht
      · simp [swAux, hc, h] at ht
        rcases ht with ht | ht
        · subst ht; exact ⟨h, hacc⟩
        · exact ih [] (by simp) t ht
    | false =>
      simp [swAux, hc] at ht
      refine ih (acc ++ [c]) ?_ t ht
      intro x hx
      rcases List.mem_append.1 hx with h1 | h1
      · exact hacc x h1
      · rw [List.mem_singleton.1 h1]; exact hc

theorem string_data_append (a b : String) :
    (a ++ b).data = a.data ++ b.data := rfl

theorem encode_msg_data (c s : String) :
    (encode_msg c s).data = ['o', 'k'] ++ ' ' :: (c.data ++ ' ' :: s.data) := by
  show (("ok " ++ c ++ " ") ++ s).data = _
  simp [string_data_append]

/-- The key distributivity of the whitespace split over the handler's
`"ok {} {}"` encoding. -/
theorem split_whitespace_encode (c s : String) :
    split_whitespace (encode_msg c s) =
      "ok" :: (split_whitespace c ++ split_whitespace s) := by
  unfold split_whitespace swTokens
  rw [encode_msg_data,
    swAux_append_ws ' ' (by decide) (['o', 'k']) (c.data ++ ' ' :: s.data) [],
    swAux_append_ws ' ' (by decide) c.data s.data []]
  have ho : rustIsWhitespace 'o' = false := by decide
  have hk : rustIsWhitespace 'k' = false := by decide
  simp [swAux, ho, hk]

/-- A nonempty whitespace-free string is its own single token. -/
theorem split_whitespace_single (s : String) (hne : s ≠ "")
    (hws : WsFree s) : split_whitespace s = [s] := by
  unfold split_whitespace swTokens
  have hd : s.data ≠ [] := by
    intro h
    exact hne (by cases s with | mk d => simp_all)
  have hcs : ∀ ch ∈ s.data, rustIsWhitespace ch = false := by
    intro ch hch
    have := hws ch hch
    simpa using this
  rw [swAux_nonws s.data hcs []]
  simp [hd]

/-- Every token of a whitespace split is nonempty and whitespace-free. -/
theorem mem_split_whitespace (s t : String)
    (ht : t ∈ split_whitespace s) : t ≠ "" ∧ WsFree t := by
  unfold split_whitespace at ht
  rcases List.mem_map.1 ht with ⟨u, hu, hmk⟩
  have h := mem_swAux s.data [] (by simp) u hu
  constructor
  · intro h0
    rw [← hmk] at h0
    exact h.1 (congrArg String.data h0)
  · intro ch hch
    have : ch ∈ u := by rw [← hmk] at hch; exact hch
    simp [h.2 ch this]

theorem string_ext {a b : String} (h : a.data = b.data) : a = b := by
  cases a; cases b; exact congrArg String.mk h

theorem string_append_left_cancel {a b c : String} (h : a ++ b = a ++ c) :
    b = c := by
  apply string_ext
  have h2 := congrArg String.data h
  rw [string_data_append, string_data_append] at h2
  exact List.append_cancel_left h2

/-- `process_params` applied to an encoded message whose two fields are
nonempty and whitespace-free reduces to the CSRF comparison. -/
theorem process_params_encode_clean (c s csrf : String)
    (hc : c ≠ "") (hcw : WsFree c) (hs : s ≠ "") (hsw : WsFree s) :
    process_params (encode_msg c s) csrf =
      if s = csrf then .ok c else .error (.csrfMismatch s csrf) := by
  unfold process_params
  rw [split_whitespace_encode, split_whitespace_single c hc hcw,
      split_whitespace_single s hs hsw]
  simp

/-- `process_params` on the `"error"` message sent by the handler for a
non-callback path: one token, not `denied`, not `err`, so the orchestrator
fails at the three-token check (line 210). -/
theorem process_params_error_msg (csrf : String) :
    process_params "error" csrf = .error .malformedCallback := by
  unfold process_params
  have h : split_whitespace "error" = ["error"] := by decide
  rw [h]
  simp

/-- The `err_message` of a CSRF mismatch, with the concatenation exposed. -/
theorem err_message_csrf (r e : String) :
    err_message (.csrfMismatch r e) =
      ("Redirect URI CSRF state check failed. Received: " ++ r ++
        ", expected: ") ++ e := rfl

/-! ### Claims -/

/-- C1 (counterexample): the claim says a request to a path other than
`/oauth/callback` "writes nothing to the ResultChannel, so that a
subsequent correct callback on the registered path is still delivered and
the login succeeds".  At the concrete input `/favicon.ico` the handler
sends the string `"error"` through the channel (the first component of
the model result is the sent message), and an execution whose channel
carries that stray message first, followed by a perfectly correct
callback message, fails with a malformed-callback error instead of
succeeding. -/
theorem C1_counterexample :
    handle_callback "/favicon.ico" (some []) =
      some ("error", not_found_response) ∧
    (run ⟨none, true, true, ["error", "ok abc tok"], "tok"⟩).1 =
      .completes (.error (.loginErr .malformedCallback)) := by
  constructor
  · decide
  · decide

/-- C1 (amended): for every inbound request whose path is not
`/oauth/callback`, the handler answers 404 but sends the string `"error"`
through the ResultChannel; since the orchestrator consumes only the first
channel message, an execution in which such a stray message arrives first
fails with a malformed-callback error — the subsequent correct callback
is not delivered. -/
theorem C1_unmatched_path_writes_error :
    (∀ (path : String) (q : Option (List (String × String))),
      path ≠ "/oauth/callback" →
      handle_callback path q = some ("error", not_found_response)) ∧
    (∀ env : Env, (∃ rest, env.messages = "error" :: rest) →
      env.browser_permission = true → env.bind_ok = true →
      (∃ sc, resolve_scopes env.scopes = .ok sc) →
      (run env).1 = .completes (.error (.loginErr .malformedCallback))) := by
  constructor
  · intro path q hpath
    unfold handle_callback
    rw [if_neg hpath]
  · rintro env ⟨rest, hmsg⟩ hperm hbind ⟨sc, hsc⟩
    simp [run, hsc, hperm, hbind, hmsg, process_params_error_msg]

/-- C1 (witness): the amended statement at the concrete stray path
`/robots.txt` and a concrete environment. -/
theorem C1_witness :
    handle_callback "/robots.txt" none = some ("error", not_found_response) ∧
    (run ⟨none, true, true, ["error"], "tok"⟩).1 =
      .completes (.error (.loginErr .malformedCallback)) :=
  ⟨C1_unmatched_path_writes_error.1 "/robots.txt" none (by decide),
   C1_unmatched_path_writes_error.2 ⟨none, true, true, ["error"], "tok"⟩
     ⟨[], rfl⟩ rfl rfl ⟨SCOPES_LIST, rfl⟩⟩

/-- C2 (counterexample): the claim includes requests "with no query
string at all" and says "the handler never panics on such input".  But
the handler calls `.unwrap()` (line 48) on `req.uri().query()`, which is
`None` for a callback-path request without a query string: the model
returns `none`, the panic marker. -/
theorem C2_counterexample :
    handle_callback "/oauth/callback" none = none := rfl

/-- C2 (amended): for every request to the callback path whose query
string is present but contains neither a `code` nor a `state` key, the
handler sends `"denied"` and answers with the redirect to the
consent-denied page; for a callback-path request with no query string at
all, the handler panics (the `.unwrap()` on line 48). -/
theorem C2_denied_when_no_code_no_state :
    (∀ q : List (String × String),
      (∀ kv ∈ q, kv.1 ≠ "code" ∧ kv.1 ≠ "state") →
      handle_callback "/oauth/callback" (some q) =
        some ("denied", denied_response)) ∧
    handle_callback "/oauth/callback" none = none := by
  constructor
  · intro q hq
    have hf : callback_params_values q = [] := by
      unfold callback_params_values
      have : q.filter (fun kv => kv.1 = "code" || kv.1 = "state") = [] := by
        rw [List.filter_eq_nil_iff]
        intro kv hkv
        have h := hq kv hkv
        simp [h.1, h.2]
      rw [this]
      rfl
    simp [handle_callback, hf]
  · rfl

/-- C2 (witness): the amended statement at the concrete denial redirect
query `error=access_denied`. -/
theorem C2_witness :
    handle_callback "/oauth/callback" (some [("error", "access_denied")]) =
      some ("denied", denied_response) :=
  C2_denied_when_no_code_no_state.1 [("error", "access_denied")] (by decide)

/-- C3 (code bug): the orchestrator's wait is `rx.recv().await` with no
timeout (line 125) — with a valid environment in which no message is ever
sent through the channel, `run` hangs forever; no `Timeout` failure
exists anywhere in the flow.  The spec itself records the divergence
(§9: "the observed behavior has no timeout on the callback wait"). -/
theorem C3_wait_hangs_without_callback :
    run ⟨none, true, true, [], "tok"⟩ =
      (.hangs, [.confirm_prompt, .open_browser, .bind_server]) := by
  decide

/-- C4 (counterexample): the claim says the listener is bound before the
browser is launched.  In the concrete successful execution below, the
trace produced by `run` performs `open_browser` (line 189) strictly
before `bind_server` (line 120, reached through line 192). -/
theorem C4_counterexample :
    (run ⟨none, true, true, ["ok abc tok"], "tok"⟩).2 =
      [.confirm_prompt, .open_browser, .bind_server, .channel_recv,
       .token_exchange "abc", .persist_credential] ∧
    (run ⟨none, true, true, ["ok abc tok"], "tok"⟩).2.indexOf
        Event.open_browser <
      (run ⟨none, true, true, ["ok abc tok"], "tok"⟩).2.indexOf
        Event.bind_server := by
  constructor <;> decide

/-- C4 (amended): in every execution that reaches the listener bind, the
browser has already been launched: the trace starts with the prompt, the
browser launch and only then the bind.  A bind failure therefore happens
with the browser already open, and ends the attempt with a panic (the
channel senders are dropped and the `unwrap` on line 125 fires), not
with a clean startup error. -/
theorem C4_browser_launched_before_bind :
    ∀ env : Env,
      (Event.bind_server ∈ (run env).2 →
        ∃ rest, (run env).2 =
          [Event.confirm_prompt, Event.open_browser, Event.bind_server] ++
            rest) ∧
      (env.bind_ok = false → env.browser_permission = true →
        (∃ sc, resolve_scopes env.scopes = .ok sc) →
        run env = (.panics,
          [.confirm_prompt, .open_browser, .bind_server])) := by
  intro env
  rcases hr : resolve_scopes env.scopes with e | sc
  · refine ⟨fun hmem => ?_, fun _ _ hsc => ?_⟩
    · simp [run, hr] at hmem
    · rcases hsc with ⟨sc, hsc⟩
      cases hsc
  · cases hperm : env.browser_permission
    · refine ⟨fun hmem => ?_, fun _ hp _ => ?_⟩
      · simp [run, hr, hperm] at hmem
      · cases hp
    · cases hbind : env.bind_ok
      · refine ⟨fun _ => ⟨[], ?_⟩, fun _ _ _ => ?_⟩
        · simp [run, hr, hperm, hbind]
        · simp [run, hr, hperm, hbind]
      · refine ⟨fun _ => ?_, fun hb _ _ => ?_⟩
        · cases hmsg : env.messages.head? with
          | none => exact ⟨[], by simp [run, hr, hperm, hbind, hmsg]⟩
          | some msg =>
            rcases hp : process_params msg env.session_csrf with e2 | c
            · exact ⟨[.channel_recv],
                by simp [run, hr, hperm, hbind, hmsg, hp]⟩
            · exact ⟨[.channel_recv, .token_exchange c, .persist_credential],
                by simp [run, hr, hperm, hbind, hmsg, hp]⟩
        · cases hb

/-- C4 (witness): the amended statement at concrete environments — a
failing bind panics after the browser launch, and a successful bind is
preceded by the browser launch in the trace. -/
theorem C4_witness :
    run ⟨none, true, false, [], "tok"⟩ =
      (.panics, [.confirm_prompt, .open_browser, .bind_server]) ∧
    ∃ rest, (run ⟨some ["zone:read"], true, true, [], "tok"⟩).2 =
      [Event.confirm_prompt, Event.open_browser, Event.bind_server] ++ rest :=
  ⟨(C4_browser_launched_before_bind ⟨none, true, false, [], "tok"⟩).2
      rfl rfl ⟨SCOPES_LIST, rfl⟩,
   (C4_browser_launched_before_bind ⟨some ["zone:read"], true, true, [],
      "tok"⟩).1 (by decide)⟩

/-- C5 (counterexample): the claim says every Granted outcome whose
returned `state` differs from the session's csrf_token (exact equality
on the secrets) fails with CsrfMismatch and never reaches the token
exchange.  At the reachable request `code=abc&state=%20tok` (the value
percent-decodes to `" tok"`) with session token `"tok"`, the handler
forwards the granted message `ok abc  tok`; the whitespace split on
line 196 collapses the padding, the comparison on line 220 passes, and
the run completes successfully with `exchange_code` invoked — although
the returned state `" tok"` differs from the session token. -/
theorem C5_counterexample :
    (" tok" : String) ≠ "tok" ∧
    handle_callback "/oauth/callback"
        (some [("code", "abc"), ("state", " tok")]) =
      some (encode_msg "abc" " tok", granted_response) ∧
    (run ⟨none, true, true, [encode_msg "abc" " tok"], "tok"⟩).1 =
      .completes (.ok ()) ∧
    Event.token_exchange "abc" ∈
      (run ⟨none, true, true, [encode_msg "abc" " tok"], "tok"⟩).2 :=
  ⟨by decide, by decide, by decide, by decide⟩

/-- C5 (amended): the CSRF gate operates on the whitespace-decoded
state token, not on the state value the server received: whenever the
channel message splits into exactly three tokens `ok <a> <b>` and the
decoded token `b` differs from the session's csrf_token, the flow fails
with the CSRF-mismatch error (lines 220-226) and the token exchange
event never appears in the trace (`exchange_code`, line 229, is not
reached).  A returned state that differs from the session token only by
surrounding whitespace is normalized by the string handoff and can pass
the gate. -/
theorem C5_decoded_state_gate :
    ∀ (env : Env) (msg a b : String),
      (∃ sc, resolve_scopes env.scopes = .ok sc) →
      env.browser_permission = true → env.bind_ok = true →
      env.messages.head? = some msg →
      split_whitespace msg = ["ok", a, b] →
      b ≠ env.session_csrf →
      (run env).1 = .completes (.error (.loginErr
        (.csrfMismatch b env.session_csrf))) ∧
      ∀ code, Event.token_exchange code ∉ (run env).2 := by
  rintro env msg a b ⟨sc, hsc⟩ hperm hbind hmsg hsplit hne
  have hp : process_params msg env.session_csrf =
      .error (.csrfMismatch b env.session_csrf) := by
    unfold process_params
    rw [hsplit]
    simp [hne]
  constructor
  · simp [run, hsc, hperm, hbind, hmsg, hp]
  · intro code
    simp [run, hsc, hperm, hbind, hmsg, hp]

/-- C5 (witness): the amended gate at a concrete environment, with
decoded state `bad` against session token `tok`. -/
theorem C5_witness :
    (run ⟨none, true, true, ["ok abc bad"], "tok"⟩).1 =
      .completes (.error (.loginErr (.csrfMismatch "bad" "tok"))) ∧
    ∀ code, Event.token_exchange code ∉
      (run ⟨none, true, true, ["ok abc bad"], "tok"⟩).2 :=
  C5_decoded_state_gate ⟨none, true, true, ["ok abc bad"], "tok"⟩
    "ok abc bad" "abc" "bad" ⟨SCOPES_LIST, rfl⟩ rfl rfl rfl (by decide)
    (by decide)

/-- C6 (counterexample): the claim says a callback request carrying
exactly one of `code`/`state` is classified `Malformed`, distinct from
the `Denied` outcome of the neither-present case.  At the concrete input
with only `code=abc`, the handler sends the very same `"denied"` message
and consent-denied redirect as the neither-present request: the
`params_values.len() != 2` branch (lines 58-70) does not distinguish
them. -/
theorem C6_counterexample :
    handle_callback "/oauth/callback" (some [("code", "abc")]) =
      some ("denied", denied_response) ∧
    handle_callback "/oauth/callback" (some [("code", "abc")]) =
      handle_callback "/oauth/callback" (some []) := by
  constructor <;> decide

/-- C6 (amended): a callback request in which exactly one `code`/`state`
value occurs is classified identically to the neither-present case: the
handler sends `"denied"` and redirects to the consent-denied page; there
is no distinct Malformed classification at the server. -/
theorem C6_single_param_is_denied (q : List (String × String))
    (h : (callback_params_values q).length = 1) :
    handle_callback "/oauth/callback" (some q) =
      some ("denied", denied_response) ∧
    handle_callback "/oauth/callback" (some q) =
      handle_callback "/oauth/callback" (some []) := by
  obtain ⟨v, hv⟩ : ∃ v, callback_params_values q = [v] := by
    rcases hl : callback_params_values q with _ | ⟨a, rest⟩
    · rw [hl] at h
      cases h
    · rcases rest with _ | ⟨b, t⟩
      · exact ⟨a, rfl⟩
      · rw [hl] at h
        simp at h
  have hd : handle_callback "/oauth/callback" (some q) =
      some ("denied", denied_response) := by
    simp [handle_callback, hv]
  exact ⟨hd, by rw [hd]; decide⟩

/-- C6 (witness): the amended statement at the concrete input with only
`state=xyz` present. -/
theorem C6_witness :
    handle_callback "/oauth/callback" (some [("state", "xyz")]) =
      some ("denied", denied_response) ∧
    handle_callback "/oauth/callback" (some [("state", "xyz")]) =
      handle_callback "/oauth/callback" (some []) :=
  C6_single_param_is_denied [("state", "xyz")] (by decide)

/-- C7 (counterexample): the claim says error text never contains a
session secret and that a CSRF-mismatch message does not vary with the
secrets.  The `bail!` on lines 221-225 interpolates both the received
state and the expected secret: at concrete secrets the two messages
differ, and the expected secret occurs verbatim inside the message. -/
theorem C7_counterexample :
    err_message (.csrfMismatch "abc" "secret-one") ≠
      err_message (.csrfMismatch "abc" "secret-two") ∧
    ∃ a b : String,
      err_message (.csrfMismatch "abc" "secret-one") =
        a ++ "secret-one" ++ b := by
  constructor
  · decide
  · exact ⟨"Redirect URI CSRF state check failed. Received: abc, expected: ",
      "", by decide⟩

/-- C7 (amended): error messages carry identifying context, but the
CSRF-mismatch message embeds the expected secret CSRF token (it is a
suffix of the message) and therefore varies with the secret values. -/
theorem C7_csrf_error_leaks_secret (r e e' : String) :
    (∃ a : String, err_message (.csrfMismatch r e) = a ++ e) ∧
    (e ≠ e' →
      err_message (.csrfMismatch r e) ≠ err_message (.csrfMismatch r e')) := by
  constructor
  · exact ⟨"Redirect URI CSRF state check failed. Received: " ++ r ++
      ", expected: ", err_message_csrf r e⟩
  · intro hne heq
    rw [err_message_csrf r e, err_message_csrf r e'] at heq
    exact hne (string_append_left_cancel heq)

/-- C7 (witness): the amended statement at concrete secrets. -/
theorem C7_witness :
    err_message (.csrfMismatch "r0" "e0") ≠
      err_message (.csrfMismatch "r0" "e1") :=
  (C7_csrf_error_leaks_secret "r0" "e0" "e1").2 (by decide)

/-- C8 (confirmed): scope resolution is all-or-nothing.  With no
requested scopes the full allow-list is used (lines 165-169); every
requested scope must be an exact, case-sensitive member of `SCOPES_LIST`
(lines 172-179), the first non-member aborts with exactly that scope's
name, and an invalid-scope failure produces an empty event trace — no
browser, listener or network action has happened. -/
theorem C8_scope_resolution :
    resolve_scopes none = .ok SCOPES_LIST ∧
    (∀ reqs : List String, (∀ s ∈ reqs, s ∈ SCOPES_LIST) →
      resolve_scopes (some reqs) = .ok reqs) ∧
    (∀ (pre : List String) (s : String) (post : List String),
      (∀ t ∈ pre, t ∈ SCOPES_LIST) → s ∉ SCOPES_LIST →
      resolve_scopes (some (pre ++ s :: post)) = .error s) ∧
    (∀ (env : Env) (s : String), resolve_scopes env.scopes = .error s →
      run env = (.completes (.error (.invalidScope s)), [])) := by
  refine ⟨rfl, ?_, ?_, ?_⟩
  · intro reqs
    induction reqs with
    | nil => intro _; rfl
    | cons s rest ih =>
      intro hall
      have hs : s ∈ SCOPES_LIST := hall s (List.mem_cons_self s rest)
      have ih2 : validate_scopes rest = .ok rest :=
        ih (fun t ht => hall t (List.mem_cons_of_mem s ht))
      simp [resolve_scopes, validate_scopes, hs, ih2]
  · intro pre
    induction pre with
    | nil =>
      intro s post _ hs
      simp [resolve_scopes, validate_scopes, hs]
    | cons t pre ih =>
      intro s post hpre hs
      have ht : t ∈ SCOPES_LIST := hpre t (List.mem_cons_self t pre)
      have ih2 : validate_scopes (pre ++ s :: post) = .error s :=
        ih s post (fun u hu => hpre u (List.mem_cons_of_mem t hu)) hs
      simp [resolve_scopes, validate_scopes, ht, ih2]
  · intro env s h
    simp [run, h]

/-- C8 (witness): the confirmed statement at concrete inputs — one valid
scope followed by an unknown one fails naming the unknown scope, with an
empty event trace. -/
theorem C8_witness :
    resolve_scopes (some ["workers:write", "bogus-scope"]) =
      .error "bogus-scope" ∧
    run ⟨some ["workers:write", "bogus-scope"], true, true, [], "tok"⟩ =
      (.completes (.error (.invalidScope "bogus-scope")), []) := by
  have h : resolve_scopes (some (["workers:write"] ++ "bogus-scope" :: [])) =
      .error "bogus-scope" :=
    C8_scope_resolution.2.2.1 ["workers:write"] "bogus-scope" []
      (by decide) (by decide)
  exact ⟨h, C8_scope_resolution.2.2.2
    ⟨some ["workers:write", "bogus-scope"], true, true, [], "tok"⟩
    "bogus-scope" h⟩

/-- C9 (confirmed): the handler collects the values of all parameters
keyed `code` or `state`, in query order and with multiplicity, and
classifies the request as granted exactly when two such values exist
(lines 51-58): a `state=xyz&code=abc` query is forwarded as
`ok xyz abc`, and the orchestrator then takes the first value — here the
state — as the authorization code (line 215); a query with two `code`
parameters and no `state` at all is likewise granted. -/
theorem C9_code_state_by_position :
    (∀ (q : List (String × String)) (v0 v1 : String),
      callback_params_values q = [v0, v1] →
      handle_callback "/oauth/callback" (some q) =
        some (encode_msg v0 v1, granted_response)) ∧
    handle_callback "/oauth/callback"
        (some [("state", "xyz"), ("code", "abc")]) =
      some (encode_msg "xyz" "abc", granted_response) ∧
    process_params (encode_msg "xyz" "abc") "abc" = .ok "xyz" ∧
    handle_callback "/oauth/callback" (some [("code", "a"), ("code", "b")]) =
      some (encode_msg "a" "b", granted_response) := by
  refine ⟨?_, by decide, by decide, by decide⟩
  intro q v0 v1 h
  simp [handle_callback, h, encode_msg]

/-- C9 (witness): the general conjunct at a concrete swapped-order
query. -/
theorem C9_witness :
    handle_callback "/oauth/callback" (some [("state", "s1"), ("code", "c1")]) =
      some (encode_msg "s1" "c1", granted_response) :=
  C9_code_state_by_position.1 [("state", "s1"), ("code", "c1")] "s1" "c1"
    (by decide)

/-- C10 (counterexample): the claim says the encode/decode round-trip
recovers the pair iff neither value contains whitespace, and that a
granted callback whose code contains whitespace fails as a malformed
callback.  At code `" abc"` (leading space) and state `"xyz"`, the split
collapses the extra whitespace: the attempt does not fail as malformed —
it proceeds to the token exchange with the mangled code `"abc"`. -/
theorem C10_counterexample :
    process_params (encode_msg " abc" "xyz") "xyz" = .ok "abc" ∧
    process_params (encode_msg " abc" "xyz") "xyz" ≠
      .error .malformedCallback ∧
    (" abc" : String) ≠ "abc" :=
  ⟨by decide, by decide, by decide⟩

/-- C10 (amended): the whitespace-joined `ok <code> <state>` encoding
round-trips through the orchestrator's whitespace split — recovering
exactly the authorization code, with the state accepted against itself —
iff both values are nonempty and contain no whitespace.  A value with
whitespace (or an empty one) never round-trips exactly: the attempt
fails as malformed or proceeds with whitespace-normalized tokens. -/
theorem C10_roundtrip_iff_clean (c s : String) :
    process_params (encode_msg c s) s = .ok c ↔
      (c ≠ "" ∧ WsFree c ∧ s ≠ "" ∧ WsFree s) := by
  constructor
  · intro h
    rcases h1 : split_whitespace c ++ split_whitespace s with
      _ | ⟨a, _ | ⟨b, _ | ⟨x, xs⟩⟩⟩
    · have hm : process_params (encode_msg c s) s =
          .error .malformedCallback := by
        unfold process_params
        rw [split_whitespace_encode, h1]
        simp
      rw [hm] at h
      cases h
    · have hm : process_params (encode_msg c s) s =
          .error .malformedCallback := by
        unfold process_params
        rw [split_whitespace_encode, h1]
        simp
      rw [hm] at h
      cases h
    · have hred : process_params (encode_msg c s) s =
          if b = s then .ok a else .error (.csrfMismatch b s) := by
        unfold process_params
        rw [split_whitespace_encode, h1]
        simp
      rw [hred] at h
      by_cases hb : b = s
      · rw [if_pos hb] at h
        have ha : a = c := by
          injection h
        rw [ha, hb] at h1
        rcases hc1 : split_whitespace c with _ | ⟨x, _ | ⟨y, ys⟩⟩
        · rw [hc1] at h1
          simp at h1
          have hmem : s ∈ split_whitespace s := by
            rw [h1]
            simp
          obtain ⟨hs_ne, hs_ws⟩ := mem_split_whitespace s s hmem
          have hone := split_whitespace_single s hs_ne hs_ws
          rw [hone] at h1
          simp at h1
        · rw [hc1] at h1
          simp at h1
          obtain ⟨hx, hs2⟩ := h1
          rw [hx] at hc1
          have hmemc : c ∈ split_whitespace c := by
            rw [hc1]
            simp
          obtain ⟨hc_ne, hc_ws⟩ := mem_split_whitespace c c hmemc
          have hmems : s ∈ split_whitespace s := by
            rw [hs2]
            simp
          obtain ⟨hs_ne, hs_ws⟩ := mem_split_whitespace s s hmems
          exact ⟨hc_ne, hc_ws, hs_ne, hs_ws⟩
        · rw [hc1] at h1
          simp at h1
          obtain ⟨hx, hy, hrest⟩ := h1
          rw [hx, hy] at hc1
          have hmemc : c ∈ split_whitespace c := by
            rw [hc1]
            simp
          obtain ⟨hc_ne, hc_ws⟩ := mem_split_whitespace c c hmemc
          have hone := split_whitespace_single c hc_ne hc_ws
          rw [hone] at hc1
          simp at hc1
      · rw [if_neg hb] at h
        cases h
    · have hm : process_params (encode_msg c s) s =
          .error .malformedCallback := by
        unfold process_params
        rw [split_whitespace_encode, h1]
        simp
      rw [hm] at h
      cases h
  · rintro ⟨hc, hcw, hs, hsw⟩
    rw [process_params_encode_clean c s s hc hcw hs hsw, if_pos rfl]

/-- C10 (witness): the amended iff applied at the concrete clean pair
`("abc", "xyz")`. -/
theorem C10_witness :
    process_params (encode_msg "abc" "xyz") "xyz" = .ok "abc" :=
  (C10_roundtrip_iff_clean "abc" "xyz").2
    ⟨by decide, by decide, by decide, by decide⟩

end Wrangler
